import Mathlib

/-!
Verification development for the ShlangeAI client core: the localStorage-backed
conversation/persona store (storage.js), the chat-completion gateway
(js/api.js), and the authenticated-request helper (auth.js).

The JavaScript source is shallowly embedded: JS values are the inductive
`JVal`, the browser storages become the record `Store` (one field per storage
key the code touches), and every storage operation is a pure Lean function
from the source, with mutation as explicit state passing.  A stored JSON
namespace is kept as a `StoredJson`: either a string JSON.parse rejects
(`corrupt`) or the parsed value (`val v`); the code only ever observes those
namespaces through JSON.parse, and every write stores JSON.stringify output,
which parses back to the written value.  Date parsing and the current time are
abstracted by explicit parameters.
-/

/-- A JavaScript (JSON-representable) value.  Objects are association lists
with the first binding of a key authoritative; values produced by JSON.parse
never repeat a key. -/
inductive JVal where
  | jnull
  | jbool (b : Bool)
  | jnum (n : Int)
  | jstr (s : String)
  | jarr (xs : List JVal)
  | jobj (fields : List (String × JVal))

/-- JS truthiness of a value. -/
def truthy : JVal → Bool
  | .jnull => false
  | .jbool b => b
  | .jnum n => n != 0
  | .jstr s => s != ""
  | .jarr _ => true
  | .jobj _ => true

/-- Whether the value is JS null (property access on it throws). -/
def isNull : JVal → Bool
  | .jnull => true
  | _ => false

/-- First binding of a key in an object field list. -/
def lookupField : List (String × JVal) → String → Option JVal
  | [], _ => none
  | (k, v) :: fs, key => if k == key then some v else lookupField fs key

/-- JS property read `o[k]` on a non-null receiver: a field of an object,
undefined (`none`) otherwise.  Callers that may hold null check `isNull`
first, because null property access throws. -/
def jsGet : JVal → String → Option JVal
  | .jobj fs, k => lookupField fs k
  | _, _ => none

/-- JS `x || d` where `x` may be undefined (`none`). -/
def jsOr (x : Option JVal) (d : JVal) : JVal :=
  match x with
  | some v => if truthy v then v else d
  | none => d

/-- Replace the first binding of `k` in place, or append a new binding: the
effect of `obj[k] = v` (and of a later key in an object literal spread) on a
JS object without repeated keys. -/
def setField : List (String × JVal) → String → JVal → List (String × JVal)
  | [], k, v => [(k, v)]
  | (k1, v1) :: fs, k, v =>
      if k1 == k then (k, v) :: fs else (k1, v1) :: setField fs k v

/-- Property write on an object value; anything else is returned unchanged. -/
def jsSetField (o : JVal) (k : String) (v : JVal) : JVal :=
  match o with
  | .jobj fs => .jobj (setField fs k v)
  | other => other

/-- Fields contributed by spreading a value into an object literal:
objects give their fields, strings give index-keyed one-character strings,
other primitives contribute nothing. -/
def spreadFields : JVal → List (String × JVal)
  | .jobj fs => fs
  | .jstr s => s.data.enum.map (fun p => (toString p.1, JVal.jstr (String.mk [p.2])))
  | _ => []

/-- A localStorage value that the code reads through JSON.parse: either a
string the parse rejects, or the parsed value. -/
inductive StoredJson where
  | corrupt
  | val (v : JVal)

/-- The browser storage state, one field per key the source touches.
`conversations` and `personas` are the JSON namespaces of localStorage;
`adminToken` and `adminTokenExpiry` are plain localStorage strings;
`adminAuth` is the plain sessionStorage flag. -/
structure Store where
  conversations : Option StoredJson
  personas : Option StoredJson
  adminToken : Option String
  adminTokenExpiry : Option String
  adminAuth : Option String

/-- A storage state with nothing stored. -/
def emptyStore : Store :=
  { conversations := none, personas := none, adminToken := none,
    adminTokenExpiry := none, adminAuth := none }

namespace Storage

/-- Storage.DEFAULT_PROMPTS.companion. -/
def promptCompanion : String :=
  "You are a friendly and empathetic AI companion. Your goal is to engage in warm, supportive conversations and help users feel heard and understood."

/-- Storage.DEFAULT_PROMPTS.code. -/
def promptCode : String :=
  "You are an expert programming assistant. You provide clear, concise coding help, debugging assistance, and best practices guidance across multiple programming languages."

/-- Storage.DEFAULT_PROMPTS.study. -/
def promptStudy : String :=
  "You are a knowledgeable study helper and tutor. You break down complex concepts, provide clear explanations, and help students learn effectively using proven pedagogical techniques."

/-- Storage.DEFAULT_PROMPTS, as the JS member read DEFAULT_PROMPTS[id]
(undefined for unknown ids). -/
def DEFAULT_PROMPTS (id : String) : Option String :=
  if id == "companion" then some promptCompanion
  else if id == "code" then some promptCode
  else if id == "study" then some promptStudy
  else none

/-- One field of the object Storage.getConversations builds:
(parsed && parsed[k]) || []. -/
def convField (parsed : JVal) (k : String) : JVal :=
  if truthy parsed then jsOr (jsGet parsed k) (.jarr []) else .jarr []

/-- Storage.getConversations: JSON.parse the conversations namespace (null
when absent) and rebuild an object with exactly the companion, code and study
fields; a parse failure is caught and yields the three empty logs. -/
def getConversations (st : Store) : JVal :=
  match st.conversations with
  | some (.val parsed) =>
      .jobj [("companion", convField parsed "companion"),
             ("code", convField parsed "code"),
             ("study", convField parsed "study")]
  | some .corrupt =>
      .jobj [("companion", .jarr []), ("code", .jarr []), ("study", .jarr [])]
  | none =>
      .jobj [("companion", convField .jnull "companion"),
             ("code", convField .jnull "code"),
             ("study", convField .jnull "study")]

/-- The message Storage.addMessage stores: the spread of the caller message
with timestamp overridden by message.timestamp || now. -/
def stampMsg (message : JVal) (nowIso : String) : JVal :=
  .jobj (setField (spreadFields message) "timestamp"
          (jsOr (jsGet message "timestamp") (.jstr nowIso)))

/-- Storage.addMessage: re-read the conversations object, stamp the message,
push it onto conversations[aiType] and store the whole object back.  A null
message (whose timestamp read throws) and a missing or non-array log (whose
push throws) land in the catch and report false with nothing written. -/
def addMessage (st : Store) (aiType : String) (message : JVal) (nowIso : String) :
    Store × Bool :=
  if isNull message then (st, false)
  else
    let convs := getConversations st
    let messageWithTimestamp := stampMsg message nowIso
    match jsGet convs aiType with
    | some (.jarr xs) =>
        let convs2 := jsSetField convs aiType (.jarr (xs ++ [messageWithTimestamp]))
        ({ st with conversations := some (.val convs2) }, true)
    | _ => (st, false)

/-- Storage.getChatHistory: conversations[persona] || []. -/
def getChatHistory (st : Store) (persona : String) : JVal :=
  jsOr (jsGet (getConversations st) persona) (.jarr [])

/-- The defaultPersonas table built inside Storage.getPersona (undefined for
unknown ids). -/
def defaultPersonas (id : String) : Option JVal :=
  if id == "companion" then
    some (.jobj [("name", .jstr "Companion"),
                 ("personality", .jstr "Friendly and empathetic"),
                 ("tone", .jnum 5),
                 ("systemPrompt", .jstr promptCompanion)])
  else if id == "code" then
    some (.jobj [("name", .jstr "Code Buddy"),
                 ("personality", .jstr "Technical and helpful"),
                 ("tone", .jnum 5),
                 ("systemPrompt", .jstr promptCode)])
  else if id == "study" then
    some (.jobj [("name", .jstr "Study Helper"),
                 ("personality", .jstr "Patient and educational"),
                 ("tone", .jnum 5),
                 ("systemPrompt", .jstr promptStudy)])
  else none

/-- aiType.charAt(0).toUpperCase() + aiType.slice(1). -/
def capFirst (s : String) : String :=
  match s.data with
  | [] => ""
  | c :: cs => String.mk (c.toUpper :: cs)

/-- The generic fallback persona Storage.getPersona builds for unknown ids
and in its catch branch. -/
def genericPersona (id : String) : JVal :=
  .jobj [("name", .jstr (capFirst id)),
         ("personality", .jstr "Helpful"),
         ("tone", .jnum 5),
         ("systemPrompt", .jstr ((DEFAULT_PROMPTS id).getD ""))]

/-- defaultPersonas[aiType] || generic fallback. -/
def defaultOrGeneric (id : String) : JVal :=
  match defaultPersonas id with
  | some p => p
  | none => genericPersona id

/-- Storage.getPersona: JSON.parse the personas namespace ({} when absent);
return the stored entry when truthy, else the built-in default or the generic
fallback.  A parse failure, and a stored JSON null (whose indexing throws),
land in the catch and yield the generic fallback. -/
def getPersona (st : Store) (aiType : String) : JVal :=
  match st.personas with
  | some .corrupt => genericPersona aiType
  | some (.val parsed) =>
      if isNull parsed then genericPersona aiType
      else
        match jsGet parsed aiType with
        | some p => if truthy p then p else defaultOrGeneric aiType
        | none => defaultOrGeneric aiType
  | none => defaultOrGeneric aiType

/-- Storage.exportData: the conversations object, the three known persona
configs, and the export date.  Its catch branch is unreachable because the
inner getters swallow their own errors. -/
def exportData (st : Store) (exportDate : String) : JVal :=
  .jobj [("conversations", getConversations st),
         ("personas", .jobj [("companion", getPersona st "companion"),
                             ("code", getPersona st "code"),
                             ("study", getPersona st "study")]),
         ("exportDate", .jstr exportDate)]

/-- JS typeof x == "object" (true for null, arrays and objects). -/
def typeofObject : JVal → Bool
  | .jnull => true
  | .jarr _ => true
  | .jobj _ => true
  | _ => false

/-- Storage.importData: reject falsy or non-object input, then overwrite the
conversations and personas namespaces with whichever of those keys the input
carries (JSON.stringify then parse preserves the value). -/
def importData (st : Store) (data : JVal) : Store × Bool :=
  if !(truthy data) || !(typeofObject data) then (st, false)
  else
    let st1 :=
      match jsGet data "conversations" with
      | some v => if truthy v then { st with conversations := some (.val v) } else st
      | none => st
    let st2 :=
      match jsGet data "personas" with
      | some v => if truthy v then { st1 with personas := some (.val v) } else st1
      | none => st1
    (st2, true)

/-- Storage.getAdminTokenExpiry. -/
def getAdminTokenExpiry (st : Store) : Option String :=
  st.adminTokenExpiry

/-- Storage.isAdminTokenExpired: true when no expiry is stored, else
new Date(expiry) <= new Date().  Date parsing is abstracted by `parseDate`
into epoch milliseconds; an unparsable string is an invalid date whose
comparisons are all false. -/
def isAdminTokenExpired (st : Store) (parseDate : String → Option Int) (now : Int) :
    Bool :=
  match getAdminTokenExpiry st with
  | none => true
  | some expiry =>
      match parseDate expiry with
      | none => false
      | some t => decide (t ≤ now)

/-- Storage.setAdminToken: always store the token; store the expiry only when
expiresAt is truthy (absent, null and the empty string all skip that write). -/
def setAdminToken (st : Store) (token : String) (expiresAt : Option String) :
    Store × Bool :=
  let st1 := { st with adminToken := some token }
  match expiresAt with
  | some e => if e == "" then (st1, true) else ({ st1 with adminTokenExpiry := some e }, true)
  | none => (st1, true)

/-- Storage.clearAdminToken: remove both the token and its expiry. -/
def clearAdminToken (st : Store) : Store × Bool :=
  ({ st with adminToken := none, adminTokenExpiry := none }, true)

/-- Storage.setAdminAuth: store "true"/"false" in the sessionStorage flag. -/
def setAdminAuth (st : Store) (isAuthenticated : Bool) : Store × Bool :=
  ({ st with adminAuth := some (if isAuthenticated then "true" else "false") }, true)

end Storage

namespace API

/-- The outcome of the fetch call inside API.getResponse: either the transport
rejects (a TypeError in JS), or a response arrives with an HTTP status and the
result of response.json() — a parse failure carries the exception message. -/
inductive FetchOutcome where
  | networkFailure
  | response (status : Nat) (body : Except String JVal)

/-- The result API.getResponse settles with: the resolved value
{ response: content } (content may be undefined), or a rejection message. -/
inductive ApiResult where
  | ok (content : Option JVal)
  | error (message : String)

/-- The connectivity failure message thrown for transport-level TypeErrors. -/
def connectErrorMsg : String :=
  "Unable to connect to Perplexity AI. Please check your internet connection."

/-- The generic non-success failure message before any error body is read. -/
def genericFailMsg (status : Nat) : String :=
  "Perplexity AI API request failed with status " ++ toString status

/-- The outer catch rethrows new Error(error.message || fallback). -/
def rethrowMsg (m : String) : String :=
  if m == "" then "Failed to get AI response from Perplexity AI" else m

/-- First truthy value of a JS || chain whose operands may be undefined. -/
def firstTruthy : List (Option JVal) → Option JVal
  | [] => none
  | none :: rest => firstTruthy rest
  | some v :: rest => if truthy v then some v else firstTruthy rest

/-- JS optional chaining o?.k: undefined when o is nullish, else the
property read. -/
def jsOptChain (o : Option JVal) (k : String) : Option JVal :=
  match o with
  | none => none
  | some v => if isNull v then none else jsGet v k

/-- JS String(v), as Error message coercion performs (array elements join
with commas; a null element contributes the empty string). -/
def jsToString : JVal → String
  | .jnull => "null"
  | .jbool b => if b then "true" else "false"
  | .jnum n => toString n
  | .jstr s => s
  | .jobj _ => "[object Object]"
  | .jarr xs => jsToStringArr xs
where
  jsToStringArr : List JVal → String
  | [] => ""
  | [.jnull] => ""
  | [x] => jsToString x
  | .jnull :: xs => "," ++ jsToStringArr xs
  | x :: xs => jsToString x ++ "," ++ jsToStringArr xs

/-- errorData.error?.message || errorData.message || errorMessage.  When
errorData is JSON null the first property read throws inside the surrounding
try and the catch keeps the generic message, which is also what the undefined
fallbacks below produce. -/
def resolveErrorMessage (errorData : JVal) (generic : String) : String :=
  match firstTruthy [jsOptChain (jsGet errorData "error") "message",
                     jsGet errorData "message"] with
  | some v => jsToString v
  | none => generic

/-- choices.length, as the success-shape check reads it.  A non-number length
value on a plain object is not numerically coerced here; the remote response
path never produces one. -/
def lengthPos : JVal → Bool
  | .jarr xs => xs.length != 0
  | .jstr s => s.length != 0
  | .jobj fs =>
      match lookupField fs "length" with
      | some (.jnum n) => decide (0 < n)
      | _ => false
  | _ => false

/-- choices[0]: the first array element, the first character of a string, or
the "0" field of a plain object; undefined otherwise. -/
def index0 : JVal → Option JVal
  | .jarr xs => xs.head?
  | .jstr s =>
      match s.data with
      | [] => none
      | c :: _ => some (.jstr (String.mk [c]))
  | .jobj fs => lookupField fs "0"
  | _ => none

/-- The success branch of API.getResponse: check
data.choices && data.choices.length > 0 && data.choices[0].message and return
{ response: data.choices[0].message.content }, else throw the
unexpected-format error.  Property reads on a null receiver throw a TypeError,
which the outer catch converts to the connectivity message. -/
def successShape (data : JVal) : ApiResult :=
  if isNull data then .error connectErrorMsg
  else
    match jsGet data "choices" with
    | none => .error (rethrowMsg "Unexpected response format from Perplexity AI")
    | some c =>
        if !(truthy c) then .error (rethrowMsg "Unexpected response format from Perplexity AI")
        else if !(lengthPos c) then .error (rethrowMsg "Unexpected response format from Perplexity AI")
        else
          match index0 c with
          | none => .error connectErrorMsg
          | some e =>
              if isNull e then .error connectErrorMsg
              else
                match jsGet e "message" with
                | some msgv =>
                    if truthy msgv then .ok (jsGet msgv "content")
                    else .error (rethrowMsg "Unexpected response format from Perplexity AI")
                | none => .error (rethrowMsg "Unexpected response format from Perplexity AI")

/-- The system-prompt content of the request API.getResponse builds:
personaData.systemPrompt || DEFAULT_PROMPTS[persona] || DEFAULT_PROMPTS.companion. -/
def systemContent (st : Store) (persona : String) : JVal :=
  jsOr (jsGet (Storage.getPersona st persona) "systemPrompt")
    (jsOr ((Storage.DEFAULT_PROMPTS persona).map JVal.jstr)
      (.jstr Storage.promptCompanion))

/-- The messages array of the outbound chat-completion request. -/
def requestMessages (st : Store) (persona : String) (userMessage : String) : JVal :=
  .jarr [.jobj [("role", .jstr "system"), ("content", systemContent st persona)],
         .jobj [("role", .jstr "user"), ("content", .jstr userMessage)]]

/-- API.getResponse, with the network round trip abstracted by the fetch
outcome.  On a non-success status the error body is read for a message and an
Error with the resolved message is thrown; the outer catch rethrows it (it is
not a TypeError), applying the empty-message fallback.  On a success status
the body shape is checked by successShape; a body parse failure there is
rethrown with its own message. -/
def getResponse (outcome : FetchOutcome) : ApiResult :=
  match outcome with
  | .networkFailure => .error connectErrorMsg
  | .response status body =>
      if 200 ≤ status ∧ status ≤ 299 then
        match body with
        | .error msg => .error (rethrowMsg msg)
        | .ok data => successShape data
      else
        let generic := genericFailMsg status
        match body with
        | .error _ => .error (rethrowMsg generic)
        | .ok errorData => .error (rethrowMsg (resolveErrorMessage errorData generic))

end API

namespace Auth

/-- Modelled from the spec: `AuthAPI.logout` — AuthAPI is a dependency of
auth.js that is not among the repository source files; per the spec a 401
response must trigger an immediate local token clear, which is what
Storage.clearAdminToken performs on the durable state. -/
def authApiLogout (st : Store) : Store :=
  (Storage.clearAdminToken st).1

/-- The outcome Auth.makeAuthenticatedRequest settles with. -/
inductive AuthRequestOutcome where
  | noToken
  | sessionExpired
  | forbidden
  | ok (status : Nat)

/-- Auth.makeAuthenticatedRequest, with the fetch abstracted by the response
status and AuthAPI.getAuthHeader by the flag hasAuthHeader: a 401 clears the
token (AuthAPI.logout) and the session flag before throwing the
session-expired error; a 403 throws the insufficient-permissions error with
no state change; anything else returns the response. -/
def makeAuthenticatedRequest (st : Store) (hasAuthHeader : Bool) (status : Nat) :
    Store × AuthRequestOutcome :=
  if !hasAuthHeader then (st, .noToken)
  else if status == 401 then
    let st1 := authApiLogout st
    let st2 := (Storage.setAdminAuth st1 false).1
    (st2, .sessionExpired)
  else if status == 403 then (st, .forbidden)
  else (st, .ok status)

end Auth

/-- Whether a property read produced a non-empty string. -/
def nonEmptyStr : Option JVal → Bool
  | some (.jstr s) => s != ""
  | _ => false

/-- Whether the stored personas namespace carries a truthy entry for the id:
exactly the states in which Storage.getPersona returns a stored config rather
than a synthesized default. -/
def hasStoredPersona (st : Store) (id : String) : Bool :=
  match st.personas with
  | some (.val parsed) =>
      if isNull parsed then false
      else
        match jsGet parsed id with
        | some p => truthy p
        | none => false
  | _ => false

/-- A concrete Date parse table for witnesses: "past" is one hour before and
"future" one hour after the fixed now of 3600000 milliseconds; everything
else is an invalid date. -/
def parseDateW : String → Option Int := fun s =>
  if s == "past" then some 0
  else if s == "future" then some 7200000
  else none

/-- A sequential caller issuing one addMessage call per list entry, each with
its message and the current time of that call. -/
def runAppends (st : Store) (id : String) : List (JVal × String) → Store
  | [] => st
  | (m, t) :: rest => runAppends (Storage.addMessage st id m t).1 id rest

/-- The canonical shape of a stored conversations blob: one array log per
known persona id. -/
def canonConvs (a b c : List JVal) : JVal :=
  .jobj [("companion", .jarr a), ("code", .jarr b), ("study", .jarr c)]

/-! Helper lemmas shared between the claim theorems. -/

theorem truthy_jsOr (x : Option JVal) (d : JVal) (hd : truthy d = true) :
    truthy (jsOr x d) = true := by
  unfold jsOr
  split
  · split
    · assumption
    · exact hd
  · exact hd

theorem truthy_convField (parsed : JVal) (k : String) :
    truthy (Storage.convField parsed k) = true := by
  unfold Storage.convField
  by_cases hp : truthy parsed = true
  · rw [if_pos hp]; exact truthy_jsOr _ _ rfl
  · rw [if_neg hp]; rfl

theorem defaultPersonas_truthy (id : String) (p : JVal)
    (h : Storage.defaultPersonas id = some p) : truthy p = true := by
  unfold Storage.defaultPersonas at h
  repeat' split at h
  any_goals exact Option.noConfusion h
  all_goals (injection h with h2; rw [← h2]; rfl)

theorem truthy_defaultOrGeneric (id : String) :
    truthy (Storage.defaultOrGeneric id) = true := by
  unfold Storage.defaultOrGeneric
  cases h : Storage.defaultPersonas id with
  | none => rfl
  | some p => exact defaultPersonas_truthy id p h

theorem truthy_getPersona (st : Store) (id : String) :
    truthy (Storage.getPersona st id) = true := by
  unfold Storage.getPersona
  split
  · rfl
  · split
    · rfl
    · split
      · split
        · assumption
        · exact truthy_defaultOrGeneric id
      · exact truthy_defaultOrGeneric id
  · exact truthy_defaultOrGeneric id

theorem genericFailMsg_ne_empty (status : Nat) :
    (API.genericFailMsg status == "") = false := by
  have h : API.genericFailMsg status ≠ "" := by
    intro h
    have h2 := congrArg String.length h
    have h3 : ("Perplexity AI API request failed with status ").length = 45 := rfl
    rw [API.genericFailMsg, String.length_append, h3, String.length_empty] at h2
    omega
  exact beq_eq_false_iff_ne.mpr h

/-! Claim theorems. -/

/-- Claim C1, counterexample: for the mocked HTTP 500 response with JSON body
carrying a top-level string "boom" under the error key, getResponse does not
fail with the message "boom"; the optional-chain read error?.message is
undefined on a string, so the generic status message is used. -/
theorem C1_counterexample :
    API.getResponse (.response 500 (.ok (.jobj [("error", .jstr "boom")])))
        = .error "Perplexity AI API request failed with status 500" ∧
    API.getResponse (.response 500 (.ok (.jobj [("error", .jstr "boom")])))
        ≠ .error "boom" := by
  refine ⟨rfl, fun h => ?_⟩
  rw [show API.getResponse (.response 500 (.ok (.jobj [("error", .jstr "boom")])))
        = .error "Perplexity AI API request failed with status 500" from rfl] at h
  injection h with h2
  simp at h2

/-- Claim C1 as amended: on every non-success HTTP status, getResponse fails
with the message taken from errorData.error.message, else errorData.message,
when a non-empty one is present; when the error body fails to parse, or
carries neither field (in particular when error holds a plain string such as
"boom"), the message is the generic "Perplexity AI API request failed with
status N". -/
theorem C1_amended_holds (status : Nat) (h : status < 200 ∨ 300 ≤ status)
    (em m s : String) (hm : m ≠ "") :
    API.getResponse (.response status (.error em))
        = .error (API.genericFailMsg status) ∧
    API.getResponse (.response status
        (.ok (.jobj [("error", .jobj [("message", .jstr m)])])))
        = .error m ∧
    API.getResponse (.response status (.ok (.jobj [("message", .jstr m)])))
        = .error m ∧
    API.getResponse (.response status (.ok (.jobj [("error", .jstr s)])))
        = .error (API.genericFailMsg status) := by
  have hok : ¬(200 ≤ status ∧ status ≤ 299) := by omega
  have hmb : (m == "") = false := beq_eq_false_iff_ne.mpr hm
  refine ⟨?_, ?_, ?_, ?_⟩ <;>
    simp [API.getResponse, hok, API.rethrowMsg, API.resolveErrorMessage,
          API.firstTruthy, API.jsOptChain, jsGet, lookupField, isNull, truthy,
          API.jsToString, hm, hmb, genericFailMsg_ne_empty]

/-- Claim C1 amended, witness at status 500 and message "boom". -/
theorem C1_amended_holds_witness :
    API.getResponse (.response 500 (.error "bad json"))
        = .error (API.genericFailMsg 500) ∧
    API.getResponse (.response 500
        (.ok (.jobj [("error", .jobj [("message", .jstr "boom")])])))
        = .error "boom" ∧
    API.getResponse (.response 500 (.ok (.jobj [("message", .jstr "boom")])))
        = .error "boom" ∧
    API.getResponse (.response 500 (.ok (.jobj [("error", .jstr "zap")])))
        = .error (API.genericFailMsg 500) :=
  C1_amended_holds 500 (Or.inr (by omega)) "bad json" "boom" "zap" (by decide)

/-- Claim C3, counterexample: a JS array is not a well-formed snapshot
object, yet importData accepts it — the typeof check classifies arrays as
objects — and reports success rather than failure (while writing nothing). -/
theorem C3_counterexample :
    (Storage.importData emptyStore (.jarr [])).2 = true ∧
    (Storage.importData emptyStore (.jarr [])).1 = emptyStore :=
  ⟨rfl, rfl⟩

/-- Claim C3 as amended: importData returns failure and leaves the whole
stored state unchanged exactly for inputs the validation rejects — falsy
values and values whose JS type is not object (strings, numbers, booleans,
null); truthy values of object type, arrays included, are accepted with
success and only the conversations/personas keys they carry are written. -/
theorem C3_amended_holds (st : Store) (data : JVal)
    (h : truthy data = false ∨ Storage.typeofObject data = false) :
    Storage.importData st data = (st, false) := by
  unfold Storage.importData
  rcases h with h | h <;> simp [h]

/-- Claim C3 amended, witness on a string input. -/
theorem C3_amended_holds_witness :
    Storage.importData emptyStore (.jstr "nope") = (emptyStore, false) :=
  C3_amended_holds emptyStore (.jstr "nope") (Or.inr rfl)

/-- Claim C5: getChatHistory is total by construction in this embedding (the
source wraps every substrate read in try/catch), and whenever nothing is
stored under the conversations key, or the stored string does not parse, it
returns the empty log for every persona id. -/
theorem C5_getlog_total (st : Store) (id : String)
    (h : st.conversations = none ∨ st.conversations = some .corrupt) :
    Storage.getChatHistory st id = .jarr [] := by
  have h1 : Storage.getConversations st
      = .jobj [("companion", .jarr []), ("code", .jarr []), ("study", .jarr [])] := by
    rcases h with h | h <;>
      simp [Storage.getConversations, h, Storage.convField, truthy]
  have hor : ∀ o : Option JVal,
      o = none ∨ o = some (.jarr []) → jsOr o (.jarr []) = .jarr [] := by
    rintro o (rfl | rfl) <;> rfl
  unfold Storage.getChatHistory
  rw [h1]
  apply hor
  simp only [jsGet, lookupField]
  repeat' split
  all_goals first | exact Or.inr rfl | exact Or.inl rfl

/-- Claim C5, witness on the empty store. -/
theorem C5_getlog_total_witness :
    Storage.getChatHistory emptyStore "companion" = .jarr [] :=
  C5_getlog_total emptyStore "companion" (Or.inl rfl)

/-- Claim C7: under an attached auth header, a 401 clears the stored admin
token and its expiry and sets the session flag to "false" before the
session-expired failure is surfaced, while a 403 surfaces the
insufficient-permissions failure with the state untouched. -/
theorem C7_auth_401_403 (st : Store) :
    ((Auth.makeAuthenticatedRequest st true 401).1.adminToken = none ∧
     (Auth.makeAuthenticatedRequest st true 401).1.adminTokenExpiry = none ∧
     (Auth.makeAuthenticatedRequest st true 401).1.adminAuth = some "false" ∧
     (Auth.makeAuthenticatedRequest st true 401).2 = .sessionExpired) ∧
    Auth.makeAuthenticatedRequest st true 403 = (st, .forbidden) :=
  ⟨⟨rfl, rfl, rfl, rfl⟩, rfl⟩

/-- Claim C8: isAdminTokenExpired is true when no expiry is stored, true when
the stored expiry parses to a time not after now, and false when it parses to
a time after now. -/
theorem C8_token_expiry (parseDate : String → Option Int) (now tp tf : Int)
    (ep ef : String) (st1 st2 st3 : Store)
    (h1 : st1.adminTokenExpiry = none)
    (h2 : st2.adminTokenExpiry = some ep) (hp2 : parseDate ep = some tp)
    (hle : tp ≤ now)
    (h3 : st3.adminTokenExpiry = some ef) (hp3 : parseDate ef = some tf)
    (hgt : now < tf) :
    Storage.isAdminTokenExpired st1 parseDate now = true ∧
    Storage.isAdminTokenExpired st2 parseDate now = true ∧
    Storage.isAdminTokenExpired st3 parseDate now = false := by
  refine ⟨?_, ?_, ?_⟩ <;>
    simp [Storage.isAdminTokenExpired, Storage.getAdminTokenExpiry,
          h1, h2, h3, hp2, hp3] <;>
    omega

/-- Claim C8, witness: no expiry, expiry one hour in the past, expiry one
hour in the future, at now = 3600000 milliseconds. -/
theorem C8_token_expiry_witness :
    Storage.isAdminTokenExpired emptyStore parseDateW 3600000 = true ∧
    Storage.isAdminTokenExpired
      { emptyStore with adminTokenExpiry := some "past" } parseDateW 3600000 = true ∧
    Storage.isAdminTokenExpired
      { emptyStore with adminTokenExpiry := some "future" } parseDateW 3600000 = false :=
  C8_token_expiry parseDateW 3600000 0 7200000 "past" "future"
    emptyStore { emptyStore with adminTokenExpiry := some "past" }
    { emptyStore with adminTokenExpiry := some "future" }
    rfl rfl rfl (by decide) rfl rfl (by decide)

/-- Claim C9: when expiresAt is absent or the empty string, setAdminToken
overwrites the stored token but leaves the stored expiry untouched, so a
later isAdminTokenExpired check still judges the old expiry. -/
theorem C9_set_token_keeps_expiry (st : Store) (token : String)
    (expiresAt : Option String) (parseDate : String → Option Int) (now : Int)
    (h : expiresAt = none ∨ expiresAt = some "") :
    (Storage.setAdminToken st token expiresAt).1.adminToken = some token ∧
    (Storage.setAdminToken st token expiresAt).1.adminTokenExpiry
      = st.adminTokenExpiry ∧
    Storage.isAdminTokenExpired (Storage.setAdminToken st token expiresAt).1
        parseDate now
      = Storage.isAdminTokenExpired st parseDate now := by
  rcases h with h | h <;> subst h <;> exact ⟨rfl, rfl, rfl⟩

/-- Claim C9, witness: overwriting the token with no expiry argument keeps
the old expiry "past", and the expiry check still reports expired. -/
theorem C9_set_token_keeps_expiry_witness :
    (Storage.setAdminToken { emptyStore with adminTokenExpiry := some "past" }
        "tok" none).1.adminToken = some "tok" ∧
    (Storage.setAdminToken { emptyStore with adminTokenExpiry := some "past" }
        "tok" none).1.adminTokenExpiry
      = ({ emptyStore with adminTokenExpiry := some "past" } : Store).adminTokenExpiry ∧
    Storage.isAdminTokenExpired
        (Storage.setAdminToken { emptyStore with adminTokenExpiry := some "past" }
          "tok" none).1 parseDateW 3600000
      = Storage.isAdminTokenExpired
          { emptyStore with adminTokenExpiry := some "past" } parseDateW 3600000 :=
  C9_set_token_keeps_expiry { emptyStore with adminTokenExpiry := some "past" }
    "tok" none parseDateW 3600000 (Or.inl rfl)

/-- Claim C10: appendMessage on a persona id outside the known set reports
failure and leaves the store unchanged: the rebuilt conversations object only
carries the three known logs, so the push hits undefined and throws into the
catch before anything is written. -/
theorem C10_unknown_persona_append (st : Store) (id : String) (m : JVal)
    (t : String) (h : ¬(id = "companion" ∨ id = "code" ∨ id = "study")) :
    Storage.addMessage st id m t = (st, false) := by
  push_neg at h
  obtain ⟨hc1, hc2, hc3⟩ := h
  have e1 : (("companion" : String) == id) = false :=
    beq_eq_false_iff_ne.mpr (fun hh => hc1 hh.symm)
  have e2 : (("code" : String) == id) = false :=
    beq_eq_false_iff_ne.mpr (fun hh => hc2 hh.symm)
  have e3 : (("study" : String) == id) = false :=
    beq_eq_false_iff_ne.mpr (fun hh => hc3 hh.symm)
  have hl : jsGet (Storage.getConversations st) id = none := by
    unfold Storage.getConversations
    split <;> simp [jsGet, lookupField, e1, e2, e3]
  unfold Storage.addMessage
  by_cases hn : isNull m = true
  · rw [if_pos hn]
  · rw [if_neg hn]
    simp only [hl]

/-- Claim C10, witness on the unknown persona id "pirate". -/
theorem C10_unknown_persona_append_witness :
    Storage.addMessage emptyStore "pirate" (.jobj [("text", .jstr "hi")]) "T"
      = (emptyStore, false) :=
  C10_unknown_persona_append emptyStore "pirate" (.jobj [("text", .jstr "hi")])
    "T" (by decide)

/-- Claim C6: for each known persona id and every store state whose personas
namespace holds no truthy entry for it (nothing stored, a corrupt blob, a
non-object blob, a missing field, or a falsy field), getPersona returns a
config with a non-empty name and a non-empty systemPrompt; the read performs
no store write (the source getPersona contains no setItem, so the embedding
is a pure read). -/
theorem C6_default_persona_nonempty (st : Store) (id : String)
    (hid : id = "companion" ∨ id = "code" ∨ id = "study")
    (h : hasStoredPersona st id = false) :
    nonEmptyStr (jsGet (Storage.getPersona st id) "name") = true ∧
    nonEmptyStr (jsGet (Storage.getPersona st id) "systemPrompt") = true := by
  rcases hid with rfl | rfl | rfl <;>
  · cases hps : st.personas with
    | none =>
        simp only [Storage.getPersona, hps]
        exact ⟨rfl, rfl⟩
    | some sj =>
        cases sj with
        | corrupt =>
            simp only [Storage.getPersona, hps]
            exact ⟨rfl, rfl⟩
        | val parsed =>
            simp only [hasStoredPersona, hps] at h
            simp only [Storage.getPersona, hps]
            by_cases hn : isNull parsed = true
            · rw [if_pos hn]
              exact ⟨rfl, rfl⟩
            · rw [if_neg hn] at h ⊢
              cases hg : jsGet parsed _ with
              | none => exact ⟨rfl, rfl⟩
              | some p =>
                  simp only [hg] at h
                  simp only [h, Bool.false_eq_true, if_false]
                  exact ⟨rfl, rfl⟩

/-- Claim C6, witness: the companion persona on the empty store. -/
theorem C6_default_persona_nonempty_witness :
    nonEmptyStr (jsGet (Storage.getPersona emptyStore "companion") "name") = true ∧
    nonEmptyStr (jsGet (Storage.getPersona emptyStore "companion") "systemPrompt")
      = true :=
  C6_default_persona_nonempty emptyStore "companion" (Or.inl rfl) rfl

theorem getConversations_truthy (st : Store) :
    truthy (Storage.getConversations st) = true := by
  unfold Storage.getConversations
  split <;> rfl

theorem getConversations_fields (st : Store) :
    ∃ x1 x2 x3, Storage.getConversations st
        = .jobj [("companion", x1), ("code", x2), ("study", x3)] ∧
      truthy x1 = true ∧ truthy x2 = true ∧ truthy x3 = true := by
  unfold Storage.getConversations
  split
  · exact ⟨_, _, _, rfl, truthy_convField _ _, truthy_convField _ _,
      truthy_convField _ _⟩
  · exact ⟨_, _, _, rfl, rfl, rfl, rfl⟩
  · exact ⟨_, _, _, rfl, truthy_convField _ _, truthy_convField _ _,
      truthy_convField _ _⟩

theorem jsOr_of_truthy (v d : JVal) (h : truthy v = true) : jsOr (some v) d = v := by
  unfold jsOr
  dsimp only
  rw [if_pos h]

theorem convField_jobj (fs : List (String × JVal)) (k : String) :
    Storage.convField (.jobj fs) k = jsOr (lookupField fs k) (.jarr []) := by
  unfold Storage.convField
  rw [if_pos (show truthy (.jobj fs) = true from rfl)]
  rfl

theorem import_export (st : Store) (d : String) :
    (Storage.importData emptyStore (Storage.exportData st d)).1
      = { emptyStore with
          conversations := some (.val (Storage.getConversations st)),
          personas := some (.val (.jobj
            [("companion", Storage.getPersona st "companion"),
             ("code", Storage.getPersona st "code"),
             ("study", Storage.getPersona st "study")])) } := by
  obtain ⟨x1, x2, x3, hE, t1, t2, t3⟩ := getConversations_fields st
  rw [hE]
  unfold Storage.importData Storage.exportData
  rw [hE]
  simp [truthy, Storage.typeofObject, jsGet, lookupField]

theorem getConversations_roundtrip (st base : Store)
    (hb : base.conversations = some (.val (Storage.getConversations st))) :
    Storage.getConversations base = Storage.getConversations st := by
  obtain ⟨x1, x2, x3, hE, t1, t2, t3⟩ := getConversations_fields st
  rw [hE] at hb
  rw [hE]
  unfold Storage.getConversations
  rw [hb]
  dsimp only
  rw [convField_jobj, convField_jobj, convField_jobj]
  simp [lookupField, jsOr_of_truthy _ _ t1, jsOr_of_truthy _ _ t2,
        jsOr_of_truthy _ _ t3]

theorem roundtrip_chat (st base : Store)
    (hb : base.conversations = some (.val (Storage.getConversations st)))
    (id : String) :
    Storage.getChatHistory base id = Storage.getChatHistory st id := by
  unfold Storage.getChatHistory
  rw [getConversations_roundtrip st base hb]

theorem roundtrip_persona (st base : Store)
    (hp : base.personas = some (.val (.jobj
      [("companion", Storage.getPersona st "companion"),
       ("code", Storage.getPersona st "code"),
       ("study", Storage.getPersona st "study")])))
    (id : String) (hid : id = "companion" ∨ id = "code" ∨ id = "study") :
    Storage.getPersona base id = Storage.getPersona st id := by
  rcases hid with rfl | rfl | rfl
  · set r := Storage.getPersona st "companion" with hr
    have ht : truthy r = true := by rw [hr]; exact truthy_getPersona st "companion"
    unfold Storage.getPersona
    rw [hp]
    simp [isNull, jsGet, lookupField, ht]
  · set r := Storage.getPersona st "code" with hr
    have ht : truthy r = true := by rw [hr]; exact truthy_getPersona st "code"
    unfold Storage.getPersona
    rw [hp]
    simp [isNull, jsGet, lookupField, ht]
  · set r := Storage.getPersona st "study" with hr
    have ht : truthy r = true := by rw [hr]; exact truthy_getPersona st "study"
    unfold Storage.getPersona
    rw [hp]
    simp [isNull, jsGet, lookupField, ht]

/-- Claim C2: exporting any store state and importing the export into the
empty store reproduces, for every known persona id, the same log and the same
persona config as read from the original store. -/
theorem C2_export_import_roundtrip (st : Store) (d : String) :
    (Storage.getChatHistory
        (Storage.importData emptyStore (Storage.exportData st d)).1 "companion"
        = Storage.getChatHistory st "companion" ∧
     Storage.getChatHistory
        (Storage.importData emptyStore (Storage.exportData st d)).1 "code"
        = Storage.getChatHistory st "code" ∧
     Storage.getChatHistory
        (Storage.importData emptyStore (Storage.exportData st d)).1 "study"
        = Storage.getChatHistory st "study") ∧
    (Storage.getPersona
        (Storage.importData emptyStore (Storage.exportData st d)).1 "companion"
        = Storage.getPersona st "companion" ∧
     Storage.getPersona
        (Storage.importData emptyStore (Storage.exportData st d)).1 "code"
        = Storage.getPersona st "code" ∧
     Storage.getPersona
        (Storage.importData emptyStore (Storage.exportData st d)).1 "study"
        = Storage.getPersona st "study") := by
  have himp := import_export st d
  have hbc : (Storage.importData emptyStore (Storage.exportData st d)).1.conversations
      = some (.val (Storage.getConversations st)) := by rw [himp]
  have hbp : (Storage.importData emptyStore (Storage.exportData st d)).1.personas
      = some (.val (.jobj
        [("companion", Storage.getPersona st "companion"),
         ("code", Storage.getPersona st "code"),
         ("study", Storage.getPersona st "study")])) := by rw [himp]
  exact ⟨⟨roundtrip_chat st _ hbc "companion", roundtrip_chat st _ hbc "code",
          roundtrip_chat st _ hbc "study"⟩,
         ⟨roundtrip_persona st _ hbp "companion" (Or.inl rfl),
          roundtrip_persona st _ hbp "code" (Or.inr (Or.inl rfl)),
          roundtrip_persona st _ hbp "study" (Or.inr (Or.inr rfl))⟩⟩

theorem lookup_setField (fs : List (String × JVal)) (k : String) (v : JVal) :
    lookupField (setField fs k v) k = some v := by
  induction fs with
  | nil => simp [setField, lookupField]
  | cons hd tl ih =>
      obtain ⟨k1, v1⟩ := hd
      simp only [setField]
      split
      next h => simp [lookupField]
      next h =>
        simp only [lookupField]
        rw [if_neg h]
        exact ih

theorem getConversations_canon (st : Store) (a b c : List JVal)
    (h : st.conversations = some (.val (canonConvs a b c))) :
    Storage.getConversations st = canonConvs a b c := by
  unfold Storage.getConversations
  rw [h]
  dsimp only
  unfold canonConvs
  rw [convField_jobj, convField_jobj, convField_jobj]
  simp [lookupField, jsOr_of_truthy, truthy]

theorem addMessage_companion (st : Store) (a b c : List JVal) (m : JVal)
    (t : String) (hm : isNull m = false)
    (hc : Storage.getConversations st = canonConvs a b c) :
    Storage.addMessage st "companion" m t
      = ({ st with conversations := some (.val (canonConvs (a ++ [Storage.stampMsg m t]) b c)) }, true) := by
  unfold Storage.addMessage
  rw [if_neg (by simp [hm])]
  simp only [hc]
  simp [canonConvs, jsGet, lookupField, jsSetField, setField]

theorem addMessage_code (st : Store) (a b c : List JVal) (m : JVal)
    (t : String) (hm : isNull m = false)
    (hc : Storage.getConversations st = canonConvs a b c) :
    Storage.addMessage st "code" m t
      = ({ st with conversations := some (.val (canonConvs a (b ++ [Storage.stampMsg m t]) c)) }, true) := by
  unfold Storage.addMessage
  rw [if_neg (by simp [hm])]
  simp only [hc]
  simp [canonConvs, jsGet, lookupField, jsSetField, setField]

theorem addMessage_study (st : Store) (a b c : List JVal) (m : JVal)
    (t : String) (hm : isNull m = false)
    (hc : Storage.getConversations st = canonConvs a b c) :
    Storage.addMessage st "study" m t
      = ({ st with conversations := some (.val (canonConvs a b (c ++ [Storage.stampMsg m t]))) }, true) := by
  unfold Storage.addMessage
  rw [if_neg (by simp [hm])]
  simp only [hc]
  simp [canonConvs, jsGet, lookupField, jsSetField, setField]

theorem runAppends_companion (msgs : List (JVal × String)) (st : Store)
    (a b c : List JVal) (hmsgs : ∀ p ∈ msgs, isNull p.1 = false)
    (hc : Storage.getConversations st = canonConvs a b c) :
    Storage.getConversations (runAppends st "companion" msgs)
      = canonConvs (a ++ msgs.map (fun p => Storage.stampMsg p.1 p.2)) b c := by
  induction msgs generalizing st a with
  | nil => simpa using hc
  | cons p rest ih =>
      obtain ⟨m, t⟩ := p
      have hm : isNull m = false := hmsgs (m, t) (by simp)
      unfold runAppends
      rw [addMessage_companion st a b c m t hm hc]
      dsimp only
      have hnext : ({ st with conversations := some (.val (canonConvs (a ++ [Storage.stampMsg m t]) b c)) } : Store).conversations = some (.val (canonConvs (a ++ [Storage.stampMsg m t]) b c)) := rfl
      rw [ih _ _ (fun q hq => hmsgs q (List.mem_cons_of_mem _ hq)) (getConversations_canon _ _ _ _ hnext)]
      simp

theorem runAppends_code (msgs : List (JVal × String)) (st : Store)
    (a b c : List JVal) (hmsgs : ∀ p ∈ msgs, isNull p.1 = false)
    (hc : Storage.getConversations st = canonConvs a b c) :
    Storage.getConversations (runAppends st "code" msgs)
      = canonConvs a (b ++ msgs.map (fun p => Storage.stampMsg p.1 p.2)) c := by
  induction msgs generalizing st b with
  | nil => simpa using hc
  | cons p rest ih =>
      obtain ⟨m, t⟩ := p
      have hm : isNull m = false := hmsgs (m, t) (by simp)
      unfold runAppends
      rw [addMessage_code st a b c m t hm hc]
      dsimp only
      have hnext : ({ st with conversations := some (.val (canonConvs a (b ++ [Storage.stampMsg m t]) c)) } : Store).conversations = some (.val (canonConvs a (b ++ [Storage.stampMsg m t]) c)) := rfl
      rw [ih _ _ (fun q hq => hmsgs q (List.mem_cons_of_mem _ hq)) (getConversations_canon _ _ _ _ hnext)]
      simp

theorem runAppends_study (msgs : List (JVal × String)) (st : Store)
    (a b c : List JVal) (hmsgs : ∀ p ∈ msgs, isNull p.1 = false)
    (hc : Storage.getConversations st = canonConvs a b c) :
    Storage.getConversations (runAppends st "study" msgs)
      = canonConvs a b (c ++ msgs.map (fun p => Storage.stampMsg p.1 p.2)) := by
  induction msgs generalizing st c with
  | nil => simpa using hc
  | cons p rest ih =>
      obtain ⟨m, t⟩ := p
      have hm : isNull m = false := hmsgs (m, t) (by simp)
      unfold runAppends
      rw [addMessage_study st a b c m t hm hc]
      dsimp only
      have hnext : ({ st with conversations := some (.val (canonConvs a b (c ++ [Storage.stampMsg m t]))) } : Store).conversations = some (.val (canonConvs a b (c ++ [Storage.stampMsg m t]))) := rfl
      rw [ih _ _ (fun q hq => hmsgs q (List.mem_cons_of_mem _ hq)) (getConversations_canon _ _ _ _ hnext)]
      simp

theorem getChatHistory_canon (st : Store) (a b c : List JVal)
    (h : Storage.getConversations st = canonConvs a b c) :
    Storage.getChatHistory st "companion" = .jarr a ∧
    Storage.getChatHistory st "code" = .jarr b ∧
    Storage.getChatHistory st "study" = .jarr c := by
  unfold Storage.getChatHistory
  rw [h]
  unfold canonConvs
  refine ⟨?_, ?_, ?_⟩ <;> simp [jsGet, lookupField, jsOr_of_truthy, truthy]

/-- Claim C4: from a fresh store, any sequence of appendMessage calls on a
known persona id (each with a non-null message) makes getLog return exactly
the stamped messages in call order; every stamped message carries the caller
timestamp when that field is truthy, and the current-time stamp of the call
otherwise. -/
theorem C4_append_getlog_order (id : String)
    (hid : id = "companion" ∨ id = "code" ∨ id = "study")
    (msgs : List (JVal × String)) (hmsgs : ∀ p ∈ msgs, isNull p.1 = false)
    (m : JVal) (t : String) :
    Storage.getChatHistory (runAppends emptyStore id msgs) id
      = .jarr (msgs.map (fun p => Storage.stampMsg p.1 p.2)) ∧
    jsGet (Storage.stampMsg m t) "timestamp"
      = some (jsOr (jsGet m "timestamp") (.jstr t)) := by
  constructor
  · have h0 : Storage.getConversations emptyStore = canonConvs [] [] [] := rfl
    rcases hid with rfl | rfl | rfl
    · have hr := runAppends_companion msgs emptyStore [] [] [] hmsgs h0
      rw [(getChatHistory_canon _ _ _ _ hr).1]
      simp
    · have hr := runAppends_code msgs emptyStore [] [] [] hmsgs h0
      rw [(getChatHistory_canon _ _ _ _ hr).2.1]
      simp
    · have hr := runAppends_study msgs emptyStore [] [] [] hmsgs h0
      rw [(getChatHistory_canon _ _ _ _ hr).2.2]
      simp
  · exact lookup_setField _ _ _

/-- Claim C4, witness: two messages on the companion log, the first without a
timestamp (stamped with the call time T1), the second with a caller timestamp
T0 (preserved). -/
theorem C4_append_getlog_order_witness :
    Storage.getChatHistory
        (runAppends emptyStore "companion"
          [(.jobj [("text", .jstr "hi")], "T1"),
           (.jobj [("text", .jstr "yo"), ("timestamp", .jstr "T0")], "T2")])
        "companion"
      = .jarr [Storage.stampMsg (.jobj [("text", .jstr "hi")]) "T1",
               Storage.stampMsg
                 (.jobj [("text", .jstr "yo"), ("timestamp", .jstr "T0")]) "T2"] ∧
    jsGet (Storage.stampMsg
        (.jobj [("text", .jstr "yo"), ("timestamp", .jstr "T0")]) "T2") "timestamp"
      = some (jsOr (jsGet (.jobj [("text", .jstr "yo"), ("timestamp", .jstr "T0")])
          "timestamp") (.jstr "T2")) :=
  C4_append_getlog_order "companion" (Or.inl rfl)
    [(.jobj [("text", .jstr "hi")], "T1"),
     (.jobj [("text", .jstr "yo"), ("timestamp", .jstr "T0")], "T2")]
    (by intro p hp; simp at hp; rcases hp with rfl | rfl <;> rfl)
    (.jobj [("text", .jstr "yo"), ("timestamp", .jstr "T0")]) "T2"
